import Mathlib

/-!
Shallow embedding of the reporting and insight pipeline of the expense
tracker (backend/server.js and the DatabaseManager aggregation queries).
JS numbers are modelled as exact rationals; the store rows are modelled as
Lean structures mirroring the SQL row shapes.
-/

namespace ExpenseTracker

/-- Calendar date of an expense row, as stored in the `date` column
(text of the form YYYY-MM-DD). -/
structure Date where
  year : Nat
  month : Nat
  day : Nat
deriving DecidableEq

/-- One row of the `expenses` table (columns id, date, category, amount,
description; the unused created_at column is omitted). -/
structure Expense where
  id : Nat
  date : Date
  category : String
  amount : ℚ
  description : String
deriving DecidableEq

/-- One row returned by getCategoryTotals: SELECT category, SUM(amount) as total. -/
structure CatTotal where
  category : String
  total : ℚ
deriving DecidableEq

/-- One row returned by getMonthlyTotals: the month key and SUM(amount) as total.
The month key encodes the YYYY-MM string as year * 100 + month, so that the
numeric order agrees with the string order used by ORDER BY month DESC. -/
structure MonthTotal where
  month : Nat
  total : ℚ
deriving DecidableEq

/-- JS Math.round: round half toward positive infinity. -/
def jsRound (q : ℚ) : ℤ := ⌊q + 1/2⌋

/-- Math.round(x * 100) / 100 from the /report handler. -/
def round2 (q : ℚ) : ℚ := (jsRound (q * 100) : ℚ) / 100

/-- JS Number.prototype.toFixed(1) for the nonnegative percentages produced by
generateInsights: nearest multiple of 0.1, ties toward positive infinity,
rendered with one digit after the point. -/
def toFixed1 (q : ℚ) : String :=
  let n : Nat := (jsRound (q * 10)).toNat
  toString (n / 10) ++ "." ++ toString (n % 10)

/-- predictNextMonth from server.js: the guard `monthlyTotals.length < 2`
becomes the wildcard match arm; otherwise first-difference extrapolation
clamped at 0 by Math.max. -/
def predictNextMonth (monthlyTotals : List MonthTotal) : ℚ :=
  match monthlyTotals with
  | m0 :: m1 :: _ =>
    let recent := m0.total
    let previous := m1.total
    let trend := recent - previous
    max 0 (recent + trend)
  | _ => 0

/-- The template literal pushed by generateInsights for a dominating category. -/
def recString (category : String) (percentage : ℚ) : String :=
  "Consider reducing " ++ category ++ " spending (" ++ toFixed1 percentage ++ "% of total)"

/-- Projection of an expense row used for the anomalies array
(fields date, amount, description of the flagged expense). -/
structure Anomaly where
  date : Date
  amount : ℚ
  description : String
deriving DecidableEq

/-- The predictions object of the insights payload. -/
structure Predictions where
  nextMonth : ℚ
deriving DecidableEq

/-- The insights payload built by generateInsights. -/
structure Insights where
  predictions : Predictions
  recommendations : List String
  anomalies : List Anomaly
deriving DecidableEq

/-- generateInsights from server.js. The two `length > 0` guards become
matches on the corresponding lists; reduce over an array becomes List.sum
of the mapped field. -/
def generateInsights (expenses : List Expense) (categoryTotals : List CatTotal)
    (monthlyTotals : List MonthTotal) : Insights :=
  let recommendations : List String :=
    match categoryTotals with
    | [] => []
    | highest :: _ =>
      let total := (categoryTotals.map CatTotal.total).sum
      let percentage := highest.total / total * 100
      if 50 < percentage then [recString highest.category percentage] else []
  let anomalies : List Anomaly :=
    match expenses with
    | [] => []
    | _ :: _ =>
      let amounts := expenses.map Expense.amount
      let avg := amounts.sum / (amounts.length : ℚ)
      let threshold := avg * 2
      (expenses.filter fun e => decide (threshold < e.amount)).map
        fun e => { date := e.date, amount := e.amount, description := e.description }
  { predictions := { nextMonth := predictNextMonth monthlyTotals },
    recommendations := recommendations,
    anomalies := anomalies }

/-- The JSON payload of the /report route. -/
structure Report where
  expenses : List Expense
  categoryTotals : List CatTotal
  monthlyTotals : List MonthTotal
  totalSpending : ℚ
  isOverBudget : Bool
  budgetLimit : ℚ
deriving DecidableEq

/-- The /report handler body after the three store reads: sums the
current-month amounts, rounds the reported totalSpending to 2 decimals,
and compares the unrounded sum against the fixed 5000 budget limit. -/
def buildReport (expenses : List Expense) (categoryTotals : List CatTotal)
    (monthlyTotals : List MonthTotal) : Report :=
  let totalSpending := (expenses.map Expense.amount).sum
  { expenses := expenses
    categoryTotals := categoryTotals
    monthlyTotals := monthlyTotals
    totalSpending := round2 totalSpending
    isOverBudget := decide (5000 < totalSpending)
    budgetLimit := 5000 }

/-- Outcome of one store read: Promise resolution or rejection. -/
def readFailed {α : Type} : Except String α → Bool
  | Except.error _ => true
  | Except.ok _ => false

/-- The /report route: Promise.all of the three reads followed by the
assembly; any rejection lands in the catch block, which answers with the
fixed error payload. -/
def reportRoute (expensesRead : Except String (List Expense))
    (categoryRead : Except String (List CatTotal))
    (monthlyRead : Except String (List MonthTotal)) : Except String Report :=
  match expensesRead, categoryRead, monthlyRead with
  | Except.ok es, Except.ok cts, Except.ok mts => Except.ok (buildReport es cts mts)
  | _, _, _ => Except.error "Failed to generate report"

/-- The /ai-insights route: same three reads, then generateInsights; any
rejection lands in the catch block with its fixed error payload. -/
def insightsRoute (expensesRead : Except String (List Expense))
    (categoryRead : Except String (List CatTotal))
    (monthlyRead : Except String (List MonthTotal)) : Except String Insights :=
  match expensesRead, categoryRead, monthlyRead with
  | Except.ok es, Except.ok cts, Except.ok mts => Except.ok (generateInsights es cts mts)
  | _, _, _ => Except.error "Failed to generate insights"

/-- One step of the SQL GROUP BY category / SUM(amount) aggregation of
DatabaseManager.getCategoryTotals: fold one expense row into the running
per-category totals (groups appear in first-seen order). -/
def addToCategoryTotals (acc : List CatTotal) (e : Expense) : List CatTotal :=
  match acc with
  | [] => [{ category := e.category, total := e.amount }]
  | c :: cs =>
    if c.category = e.category then
      { category := c.category, total := c.total + e.amount } :: cs
    else
      c :: addToCategoryTotals cs e

/-- GROUP BY category with SUM(amount) over a row set. -/
def groupByCategory (records : List Expense) : List CatTotal :=
  records.foldl addToCategoryTotals []

/-- ORDER BY total DESC comparison for category rows. -/
def byTotalDesc : CatTotal → CatTotal → Prop := fun a b => b.total ≤ a.total

instance : DecidableRel byTotalDesc :=
  fun a b => inferInstanceAs (Decidable (b.total ≤ a.total))

instance : IsTotal CatTotal byTotalDesc :=
  ⟨fun a b => le_total b.total a.total⟩

instance : IsTrans CatTotal byTotalDesc :=
  ⟨fun _ _ _ hab hbc => le_trans hbc hab⟩

/-- DatabaseManager.getCategoryTotals, as a function of the month-filtered
row set: SELECT category, SUM(amount) as total ... GROUP BY category
ORDER BY total DESC (the WHERE date LIKE month filter selects the input
row set and is factored out). -/
def getCategoryTotals (records : List Expense) : List CatTotal :=
  List.insertionSort byTotalDesc (groupByCategory records)

/-- Month key of a row, strftime of the date column: the YYYY-MM text
encoded as year * 100 + month so numeric order matches string order. -/
def monthKey (d : Date) : Nat := d.year * 100 + d.month

/-- One step of the GROUP BY strftime year-month / SUM(amount) aggregation
of DatabaseManager.getMonthlyTotals. -/
def addToMonthlyTotals (acc : List MonthTotal) (e : Expense) : List MonthTotal :=
  match acc with
  | [] => [{ month := monthKey e.date, total := e.amount }]
  | m :: ms =>
    if m.month = monthKey e.date then
      { month := m.month, total := m.total + e.amount } :: ms
    else
      m :: addToMonthlyTotals ms e

/-- GROUP BY year-month with SUM(amount) over a row set. -/
def groupByMonth (records : List Expense) : List MonthTotal :=
  records.foldl addToMonthlyTotals []

/-- ORDER BY month DESC comparison for monthly rows. -/
def byMonthDesc : MonthTotal → MonthTotal → Prop := fun a b => b.month ≤ a.month

instance : DecidableRel byMonthDesc :=
  fun a b => inferInstanceAs (Decidable (b.month ≤ a.month))

instance : IsTotal MonthTotal byMonthDesc :=
  ⟨fun a b => Nat.le_total b.month a.month⟩

instance : IsTrans MonthTotal byMonthDesc :=
  ⟨fun _ _ _ hab hbc => Nat.le_trans hbc hab⟩

/-- DatabaseManager.getMonthlyTotals: SELECT month key, SUM(amount) as
total ... GROUP BY month key ORDER BY month DESC LIMIT 6 over the whole
table. -/
def getMonthlyTotals (records : List Expense) : List MonthTotal :=
  (List.insertionSort byMonthDesc (groupByMonth records)).take 6

/-! ### Helper lemmas about the aggregation folds -/

theorem totalSum_addToCategoryTotals (acc : List CatTotal) (e : Expense) :
    ((addToCategoryTotals acc e).map CatTotal.total).sum
      = (acc.map CatTotal.total).sum + e.amount := by
  induction acc with
  | nil => simp [addToCategoryTotals]
  | cons c cs ih =>
    by_cases h : c.category = e.category
    · simp only [addToCategoryTotals, if_pos h, List.map_cons, List.sum_cons]
      ring
    · simp only [addToCategoryTotals, if_neg h, List.map_cons, List.sum_cons, ih]
      ring

theorem totalSum_foldl_category (records : List Expense) (acc : List CatTotal) :
    (((records.foldl addToCategoryTotals acc)).map CatTotal.total).sum
      = (acc.map CatTotal.total).sum + (records.map Expense.amount).sum := by
  induction records generalizing acc with
  | nil => simp
  | cons e es ih =>
    simp only [List.foldl_cons, List.map_cons, List.sum_cons]
    rw [ih, totalSum_addToCategoryTotals]
    ring

theorem totalSum_groupByCategory (records : List Expense) :
    ((groupByCategory records).map CatTotal.total).sum
      = (records.map Expense.amount).sum := by
  simpa [groupByCategory] using totalSum_foldl_category records []

/-! ### C5: category totals partition the records and come back sorted -/

/-- C5: for every non-empty record set, the category totals returned by
getCategoryTotals sum to exactly the sum of the amounts of the input
records (no record double-counted or lost), and the returned sequence is
sorted descending by total. -/
theorem categoryTotals_partition (records : List Expense) (h : records ≠ []) :
    ((getCategoryTotals records).map CatTotal.total).sum
        = (records.map Expense.amount).sum
    ∧ List.Sorted byTotalDesc (getCategoryTotals records) := by
  constructor
  · have hperm : List.Perm
        (List.insertionSort byTotalDesc (groupByCategory records))
        (groupByCategory records) := List.perm_insertionSort byTotalDesc _
    rw [getCategoryTotals, (hperm.map CatTotal.total).sum_eq]
    exact totalSum_groupByCategory records
  · exact List.sorted_insertionSort byTotalDesc _

/-- Two current-month rows in two distinct categories, used to instantiate
the C5 statement. -/
def twoCatRecords : List Expense :=
  [⟨1, ⟨2024, 1, 15⟩, "Food", 600, "groceries"⟩,
   ⟨2, ⟨2024, 1, 16⟩, "Travel", 400, "uber"⟩]

/-- Witness for C5 at a concrete two-category record set. -/
theorem categoryTotals_partition_witness :
    twoCatRecords ≠ []
    ∧ (((getCategoryTotals twoCatRecords).map CatTotal.total).sum
          = (twoCatRecords.map Expense.amount).sum
       ∧ List.Sorted byTotalDesc (getCategoryTotals twoCatRecords)) :=
  ⟨by simp [twoCatRecords], categoryTotals_partition twoCatRecords (by simp [twoCatRecords])⟩

/-! ### C6: monthly totals are grouped by month, at most 6, most recent first -/

/-- C6: the monthly totals sequence has length at most 6, is sorted
descending by month key, and every returned row is at least as recent as
every row cut off by the LIMIT 6. -/
theorem monthlyTotals_spec (records : List Expense) :
    (getMonthlyTotals records).length ≤ 6
    ∧ List.Sorted byMonthDesc (getMonthlyTotals records)
    ∧ ∀ kept dropped, kept ∈ getMonthlyTotals records →
        dropped ∈ (List.insertionSort byMonthDesc (groupByMonth records)).drop 6 →
        dropped.month ≤ kept.month := by
  refine ⟨?_, ?_, ?_⟩
  · rw [getMonthlyTotals, List.length_take]
    exact min_le_left _ _
  · exact List.Pairwise.sublist (List.take_sublist 6 _)
      (List.sorted_insertionSort byMonthDesc _)
  · intro kept dropped hk hd
    have hs : List.Sorted byMonthDesc
        (List.insertionSort byMonthDesc (groupByMonth records)) :=
      List.sorted_insertionSort byMonthDesc _
    rw [← List.take_append_drop 6
      (List.insertionSort byMonthDesc (groupByMonth records))] at hs
    exact (List.pairwise_append.mp hs).2.2 kept hk dropped hd

/-- Seven records in seven consecutive months, used to instantiate the
C6 statement so that the LIMIT 6 actually cuts a row off. -/
def sevenMonthRecords : List Expense :=
  [⟨1, ⟨2024, 1, 1⟩, "Food", 1, "a"⟩,
   ⟨2, ⟨2024, 2, 1⟩, "Food", 1, "b"⟩,
   ⟨3, ⟨2024, 3, 1⟩, "Food", 1, "c"⟩,
   ⟨4, ⟨2024, 4, 1⟩, "Food", 1, "d"⟩,
   ⟨5, ⟨2024, 5, 1⟩, "Food", 1, "e"⟩,
   ⟨6, ⟨2024, 6, 1⟩, "Food", 1, "f"⟩,
   ⟨7, ⟨2024, 7, 1⟩, "Food", 1, "g"⟩]

/-- Witness for C6: with seven months of history the February 2024 row is
kept, the January 2024 row is cut off, and the cut row is older. -/
theorem monthlyTotals_spec_witness :
    (⟨202402, 1⟩ : MonthTotal) ∈ getMonthlyTotals sevenMonthRecords
    ∧ (⟨202401, 1⟩ : MonthTotal)
        ∈ (List.insertionSort byMonthDesc (groupByMonth sevenMonthRecords)).drop 6
    ∧ (⟨202401, 1⟩ : MonthTotal).month ≤ (⟨202402, 1⟩ : MonthTotal).month :=
  ⟨by decide, by decide,
    (monthlyTotals_spec sevenMonthRecords).2.2 ⟨202402, 1⟩ ⟨202401, 1⟩
      (by decide) (by decide)⟩

/-! ### C1: the budget flag versus the rounded totalSpending field -/

/-- Current-month row whose amount sums to 5000.001, landing strictly
between the budget limit and the rounding granularity of totalSpending. -/
def borderlineExpense : Expense :=
  ⟨1, ⟨2024, 1, 15⟩, "Food", 5000 + 1/1000, "groceries"⟩

/-- C1 counterexample: for a current-month record set summing to 5000.001 the
report has isOverBudget = true while the returned (rounded) totalSpending
field equals 5000, so isOverBudget is not equivalent to totalSpending > 5000. -/
theorem isOverBudget_rounding_cex :
    (buildReport [borderlineExpense] [] []).isOverBudget = true
    ∧ ¬ (5000 < (buildReport [borderlineExpense] [] []).totalSpending) := by
  have hsum : (([borderlineExpense].map Expense.amount).sum : ℚ) = 5000 + 1/1000 := by
    simp [borderlineExpense]
  have hfloor : jsRound ((5000 + 1/1000 : ℚ) * 100) = 500000 := by
    rw [jsRound, Int.floor_eq_iff]
    constructor <;> norm_num
  have hts : (buildReport [borderlineExpense] [] []).totalSpending = 5000 := by
    show round2 (([borderlineExpense].map Expense.amount).sum) = 5000
    rw [hsum, round2, hfloor]
    norm_num
  constructor
  · show decide ((5000 : ℚ) < ([borderlineExpense].map Expense.amount).sum) = true
    rw [hsum]
    exact decide_eq_true (by norm_num)
  · rw [hts]
    norm_num

/-- C1 amended: isOverBudget is computed from the unrounded current-month
sum, not from the rounded totalSpending field: it is true iff the raw sum
strictly exceeds 5000 (so at a raw sum of exactly 5000 it is false), while
the totalSpending field is that sum rounded to 2 decimal places. -/
theorem isOverBudget_iff_unrounded_sum (es : List Expense) (cts : List CatTotal)
    (mts : List MonthTotal) :
    ((buildReport es cts mts).isOverBudget = true
        ↔ 5000 < (es.map Expense.amount).sum)
    ∧ (buildReport es cts mts).totalSpending
        = round2 ((es.map Expense.amount).sum)
    ∧ (buildReport es cts mts).budgetLimit = 5000 := by
  refine ⟨?_, rfl, rfl⟩
  show decide ((5000 : ℚ) < (es.map Expense.amount).sum) = true ↔ _
  exact decide_eq_true_iff

/-! ### C2: the next-month prediction formula -/

/-- C2: predictNextMonth returns 0 on histories shorter than 2 periods and
otherwise clamps the first-difference extrapolation at 0; in particular the
spec's three sample evaluations hold. -/
theorem predictNextMonth_spec :
    predictNextMonth [] = 0
    ∧ (∀ m : MonthTotal, predictNextMonth [m] = 0)
    ∧ (∀ (m0 m1 : MonthTotal) (rest : List MonthTotal),
        predictNextMonth (m0 :: m1 :: rest)
          = max 0 (m0.total + (m0.total - m1.total)))
    ∧ predictNextMonth [⟨202401, 100⟩] = 0
    ∧ predictNextMonth [⟨202402, 150⟩, ⟨202401, 100⟩] = 200 := by
  refine ⟨rfl, fun m => rfl, fun m0 m1 rest => rfl, rfl, ?_⟩
  norm_num [predictNextMonth]

/-! ### C3: the concentration recommendation -/

/-- C3: for a non-empty category-totals list with positive overall total,
the insight engine produces the single concentration recommendation exactly
when the top category's share strictly exceeds one half, and never produces
more than one recommendation. -/
theorem concentration_spec (es : List Expense) (mts : List MonthTotal)
    (highest : CatTotal) (rest : List CatTotal)
    (hpos : 0 < (((highest :: rest).map CatTotal.total).sum)) :
    (((generateInsights es (highest :: rest) mts).recommendations ≠ []) ↔
        1/2 < highest.total / ((highest :: rest).map CatTotal.total).sum)
    ∧ (generateInsights es (highest :: rest) mts).recommendations.length ≤ 1
    ∧ (1/2 < highest.total / ((highest :: rest).map CatTotal.total).sum →
        (generateInsights es (highest :: rest) mts).recommendations
          = [recString highest.category
              (highest.total / ((highest :: rest).map CatTotal.total).sum * 100)])
    ∧ (highest.total / ((highest :: rest).map CatTotal.total).sum ≤ 1/2 →
        (generateInsights es (highest :: rest) mts).recommendations = []) := by
  have hrec : (generateInsights es (highest :: rest) mts).recommendations
      = if 50 < highest.total / ((highest :: rest).map CatTotal.total).sum * 100 then
          [recString highest.category
            (highest.total / ((highest :: rest).map CatTotal.total).sum * 100)]
        else [] := rfl
  have key : ∀ y : ℚ, (50 < y * 100) ↔ (1/2 < y) := by
    intro y
    constructor <;> intro h <;> linarith
  by_cases hc : 1/2 < highest.total / ((highest :: rest).map CatTotal.total).sum
  · have hc2 : 50 < highest.total / ((highest :: rest).map CatTotal.total).sum * 100 :=
      (key _).mpr hc
    rw [hrec, if_pos hc2]
    exact ⟨⟨fun _ => hc, fun _ => by simp⟩, by simp, fun _ => rfl,
      fun hle => absurd hc (not_lt.mpr hle)⟩
  · have hc2 : ¬ 50 < highest.total / ((highest :: rest).map CatTotal.total).sum * 100 :=
      fun hgt => hc ((key _).mp hgt)
    rw [hrec, if_neg hc2]
    exact ⟨⟨fun hne => absurd rfl hne, fun hgt => absurd hgt hc⟩, by simp,
      fun hgt => absurd hgt hc, fun _ => rfl⟩

/-- Witness for C3 at the spec's Food 600 / Travel 400 example: the share
is 60 percent and exactly one recommendation naming Food is produced. -/
theorem concentration_spec_witness :
    0 < (([⟨"Food", 600⟩, ⟨"Travel", 400⟩] : List CatTotal).map CatTotal.total).sum
    ∧ 1/2 < (⟨"Food", 600⟩ : CatTotal).total
        / (([⟨"Food", 600⟩, ⟨"Travel", 400⟩] : List CatTotal).map CatTotal.total).sum
    ∧ (generateInsights [] [⟨"Food", 600⟩, ⟨"Travel", 400⟩] []).recommendations
        = [recString (⟨"Food", 600⟩ : CatTotal).category
            ((⟨"Food", 600⟩ : CatTotal).total
              / (([⟨"Food", 600⟩, ⟨"Travel", 400⟩] : List CatTotal).map
                  CatTotal.total).sum * 100)] := by
  have hpos : 0 < (([⟨"Food", 600⟩, ⟨"Travel", 400⟩] : List CatTotal).map
      CatTotal.total).sum := by
    norm_num
  have hhalf : (1:ℚ)/2 < (⟨"Food", 600⟩ : CatTotal).total
      / (([⟨"Food", 600⟩, ⟨"Travel", 400⟩] : List CatTotal).map CatTotal.total).sum := by
    norm_num
  exact ⟨hpos, hhalf,
    (concentration_spec [] [] ⟨"Food", 600⟩ [⟨"Travel", 400⟩] hpos).2.2.1 hhalf⟩

/-! ### C4: anomaly detection -/

/-- The threshold of the anomaly rule: twice the mean amount of the given
records (the mean is taken over the mapped amounts array, as in the code). -/
def anomalyThreshold (es : List Expense) : ℚ :=
  ((es.map Expense.amount).sum / ((es.map Expense.amount).length : ℚ)) * 2

/-- C4: the anomalies array is exactly the projection of the records whose
amount strictly exceeds twice the mean, the flagged rows form a sublist of
the input (original relative order preserved), membership in the flagged
rows is characterized by the threshold comparison, and the empty record
set yields no anomalies. -/
theorem anomalies_spec (es : List Expense) (cts : List CatTotal)
    (mts : List MonthTotal) :
    ((generateInsights es cts mts).anomalies
        = (es.filter fun e => decide (anomalyThreshold es < e.amount)).map
            (fun e => { date := e.date, amount := e.amount,
                        description := e.description : Anomaly }))
    ∧ List.Sublist (es.filter fun e => decide (anomalyThreshold es < e.amount)) es
    ∧ (∀ e : Expense,
        e ∈ es.filter (fun e => decide (anomalyThreshold es < e.amount))
          ↔ e ∈ es ∧ anomalyThreshold es < e.amount)
    ∧ (generateInsights [] cts mts).anomalies = [] := by
  refine ⟨?_, List.filter_sublist _, ?_, rfl⟩
  · cases es with
    | nil => rfl
    | cons e0 es0 => rfl
  · intro e
    simp [List.mem_filter]

/-! ### C7: a failed store read aborts the whole report and insights -/

/-- C7: if any of the three store reads fails, both the /report and the
/ai-insights handlers answer with their fixed error payloads and no partial
report or insights value is produced. -/
theorem storeFailure_aborts
    (r1 : Except String (List Expense)) (r2 : Except String (List CatTotal))
    (r3 : Except String (List MonthTotal))
    (h : readFailed r1 = true ∨ readFailed r2 = true ∨ readFailed r3 = true) :
    reportRoute r1 r2 r3 = Except.error "Failed to generate report"
    ∧ insightsRoute r1 r2 r3 = Except.error "Failed to generate insights" := by
  cases r1 with
  | error e1 => exact ⟨rfl, rfl⟩
  | ok v1 =>
    cases r2 with
    | error e2 => exact ⟨rfl, rfl⟩
    | ok v2 =>
      cases r3 with
      | error e3 => exact ⟨rfl, rfl⟩
      | ok v3 => simp [readFailed] at h

/-- Witness for C7: a rejected expenses read makes both routes answer with
their error payloads. -/
theorem storeFailure_aborts_witness :
    (readFailed (Except.error "connection lost" : Except String (List Expense)) = true
      ∨ readFailed (Except.ok ([] : List CatTotal)) = true
      ∨ readFailed (Except.ok ([] : List MonthTotal)) = true)
    ∧ (reportRoute (Except.error "connection lost") (Except.ok []) (Except.ok [])
          = Except.error "Failed to generate report"
       ∧ insightsRoute (Except.error "connection lost") (Except.ok []) (Except.ok [])
          = Except.error "Failed to generate insights") :=
  ⟨Or.inl rfl, storeFailure_aborts _ _ _ (Or.inl rfl)⟩

/-! ### C8: report and insight assembly are deterministic in the reads -/

/-- C8: two runs of the report assembly and of the insight assembly over
equal results of the three store reads produce identical payloads, every
field included. -/
theorem report_deterministic
    (es es2 : List Expense) (cts cts2 : List CatTotal) (mts mts2 : List MonthTotal)
    (h1 : es = es2) (h2 : cts = cts2) (h3 : mts = mts2) :
    buildReport es cts mts = buildReport es2 cts2 mts2
    ∧ generateInsights es cts mts = generateInsights es2 cts2 mts2 := by
  subst h1
  subst h2
  subst h3
  exact ⟨rfl, rfl⟩

/-- The five sample rows that DatabaseManager.insertSampleData seeds. -/
def sampleExpenses : List Expense :=
  [⟨1, ⟨2024, 1, 15⟩, "Food", 1200, "Grocery shopping"⟩,
   ⟨2, ⟨2024, 1, 16⟩, "Travel", 800, "Uber rides"⟩,
   ⟨3, ⟨2024, 1, 17⟩, "Shopping", 2500, "New clothes"⟩,
   ⟨4, ⟨2024, 1, 18⟩, "Food", 600, "Restaurant dinner"⟩,
   ⟨5, ⟨2024, 1, 19⟩, "Other", 300, "Movie tickets"⟩]

/-- Witness for C8 on the sample data set. -/
theorem report_deterministic_witness :
    sampleExpenses = sampleExpenses
    ∧ (buildReport sampleExpenses [] [] = buildReport sampleExpenses [] []
       ∧ generateInsights sampleExpenses [] [] = generateInsights sampleExpenses [] []) :=
  ⟨rfl, report_deterministic sampleExpenses sampleExpenses [] [] [] [] rfl rfl rfl⟩

/-! ### C9: empty category totals produce no recommendation and no division -/

/-- C9: with an empty category-totals input the guarded branch is skipped
entirely, so the recommendations list is empty and no indexing of the empty
list and no division by the zero total ever happens. -/
theorem empty_categories_no_recommendation (es : List Expense)
    (mts : List MonthTotal) :
    (generateInsights es [] mts).recommendations = [] := rfl

/-! ### C10: the prediction depends only on the two most recent periods -/

/-- C10: predictNextMonth reads only the entries at indices 0 and 1: any
two histories of length at least 2 agreeing there get the same prediction,
whatever their older periods are. -/
theorem predictNextMonth_firstTwo (l1 l2 : List MonthTotal)
    (h1 : 2 ≤ l1.length) (h2 : 2 ≤ l2.length)
    (ha : l1[0]? = l2[0]?) (hb : l1[1]? = l2[1]?) :
    predictNextMonth l1 = predictNextMonth l2 := by
  cases l1 with
  | nil => norm_num at h1
  | cons a t =>
    cases t with
    | nil => norm_num at h1
    | cons b t2 =>
      cases l2 with
      | nil => norm_num at h2
      | cons c s =>
        cases s with
        | nil => norm_num at h2
        | cons d s2 =>
          simp only [List.getElem?_cons_zero, List.getElem?_cons_succ,
            Option.some.injEq] at ha hb
          subst ha
          subst hb
          rfl

/-- Witness for C10: two histories sharing the first two periods but with
different tails get the same prediction. -/
theorem predictNextMonth_firstTwo_witness :
    2 ≤ ([⟨202402, 150⟩, ⟨202401, 100⟩] : List MonthTotal).length
    ∧ 2 ≤ ([⟨202402, 150⟩, ⟨202401, 100⟩, ⟨202312, 999⟩] : List MonthTotal).length
    ∧ ([⟨202402, 150⟩, ⟨202401, 100⟩] : List MonthTotal)[0]?
        = ([⟨202402, 150⟩, ⟨202401, 100⟩, ⟨202312, 999⟩] : List MonthTotal)[0]?
    ∧ ([⟨202402, 150⟩, ⟨202401, 100⟩] : List MonthTotal)[1]?
        = ([⟨202402, 150⟩, ⟨202401, 100⟩, ⟨202312, 999⟩] : List MonthTotal)[1]?
    ∧ predictNextMonth [⟨202402, 150⟩, ⟨202401, 100⟩]
        = predictNextMonth [⟨202402, 150⟩, ⟨202401, 100⟩, ⟨202312, 999⟩] :=
  ⟨by norm_num, by norm_num, rfl, rfl,
    predictNextMonth_firstTwo _ _ (by norm_num) (by norm_num) rfl rfl⟩

end ExpenseTracker
